import Mathlib

/-!
Verification of the native-extension Python bridge (`src/python_bridge.cc`).

The bridge exposes one synchronous entry point, `executePythonSync`, which
takes one string argument (Python source text), lazily initializes the
embedded CPython interpreter once per process, runs the source with
`PyRun_String`, converts an embedded exception into a host error message, and
on success returns the result of `ParsePythonJsonOutput` applied to a
hardcoded mock of the captured stdout.

The shallow embedding below models:
  - host (N-API) values as the inductive `NapiValue`;
  - embedded (Python) values, as far as `PyObjectToNapiValue` inspects them,
    as the inductive `PyObject`;
  - the ambient CPython C API behavior that the bridge consults
    (Py_IsInitialized after bring-up, PyImport_AddModule, PyRun_String and
    the fetched exception state) as an explicit `PyRuntime` record;
  - the process-global flag `python_initialized` as `BridgeState`;
  - each C function as a Lean function over these types, with explicit
    state passing for the global flag.
-/

/-- Payload of a host `Napi::Number`.  JavaScript numbers are IEEE doubles;
the bridge creates them either from a C `long` (the `int` constructor, whose
payload is the exact integer value of the resulting double — every double
obtained from a `long` is an integer of magnitude at most `2 ^ 63`) or passes
a Python double through unchanged (`PyFloat_AsDouble` then
`Napi::Number::New`), which we model opaquely by the bit pattern of the
double (`float`). -/
inductive JsNum where
  | int (n : Int)
  | float (bits : Nat)
deriving DecidableEq, Repr

/-- A host (Node.js / N-API) value, as far as the bridge constructs them. -/
inductive NapiValue where
  | undefined
  | null
  | boolean (b : Bool)
  | number (n : JsNum)
  | string (s : String)
  | object (fields : List (String × NapiValue))

/-- An embedded Python object, as far as `PyObjectToNapiValue` inspects it:
`none` is `Py_None`; `bool`, `int` (arbitrary precision), `float` and `str`
are the scalar kinds the function checks for in order; `other` is any other
Python object, carrying its type name (which the C code never reads).
For `str`, `enc = some s` means `PyUnicode_AsUTF8String` succeeds and the
produced UTF-8 bytes read back as `s`; `enc = Option.none` means the encoding
call fails (e.g. lone surrogates). -/
inductive PyObject where
  | none
  | bool (b : Bool)
  | int (n : Int)
  | float (bits : Nat)
  | str (enc : Option String)
  | other (typeName : String)
deriving DecidableEq, Repr

/-- Smallest value of the 64-bit C `long` used by `PyLong_AsLong` (LP64). -/
def LONG_MIN : Int := -(2 ^ 63)

/-- Largest value of the 64-bit C `long` used by `PyLong_AsLong` (LP64). -/
def LONG_MAX : Int := 2 ^ 63 - 1

/-- The NUL character, whose UTF-8 encoding is the single byte `0x00` (no
other code point produces a `0x00` byte in standard UTF-8). -/
def NUL : Char := Char.ofNat 0

/-- Model of `std::string result((char*)PyBytes_AsString(py_bytes))` at
python_bridge.cc line 58: the `std::string(const char*)` constructor reads
the UTF-8 buffer only up to its first NUL byte, so the decoded string is
truncated at its first NUL character. -/
def truncAtNul (s : String) : String := String.mk (s.data.takeWhile (fun c => c != NUL))

/-- Round `a` to the nearest multiple of `2 ^ j`, ties to the even multiple
(the IEEE-754 default rounding used by the x86-64 integer-to-double
conversion). -/
def roundNearestEvenNat (a j : Nat) : Nat :=
  let p := 2 ^ j
  let r := a % p
  if 2 * r < p then a - r
  else if p < 2 * r then a + (p - r)
  else if (a / p) % 2 = 0 then a - r else a + (p - r)

/-- Binary exponent of the spacing (ulp) of IEEE-754 doubles at magnitude
`a`, for `a < 2 ^ 63`: `0` up to `2 ^ 53` (every such integer is exactly
representable), and `k` on the binade up to `2 ^ (53 + k)`. -/
def ulpExp (a : Nat) : Nat :=
  if a ≤ 2 ^ 53 then 0
  else if a < 2 ^ 54 then 1
  else if a < 2 ^ 55 then 2
  else if a < 2 ^ 56 then 3
  else if a < 2 ^ 57 then 4
  else if a < 2 ^ 58 then 5
  else if a < 2 ^ 59 then 6
  else if a < 2 ^ 60 then 7
  else if a < 2 ^ 61 then 8
  else if a < 2 ^ 62 then 9
  else 10

/-- Model of the implicit C `long` to `double` conversion performed by
`Napi::Number::New(env, result)` at python_bridge.cc line 42: the result is
the representable double nearest to `n` (ties to even, the default x86-64
rounding), represented here by its exact integer value.  Magnitudes up to
`2 ^ 53` are unchanged; above that the value is rounded to the nearest
multiple of the ulp `2 ^ ulpExp`. -/
def doubleOfLong (n : Int) : Int :=
  let a := n.natAbs
  let r := roundNearestEvenNat a (ulpExp a)
  if n < 0 then -(r : Int) else (r : Int)

/-- Embedding of `PyObjectToNapiValue` (python_bridge.cc lines 19-65).
The argument is `Option PyObject` because the C function first checks for a
null `PyObject*` pointer and returns `env.Undefined()`.  `PyLong_AsLong`
returns the value for in-range integers; out of range it returns -1 with an
`OverflowError` raised, which the code clears and maps to the number 0.  An
in-range `long` is then passed to `Napi::Number::New`, whose parameter is a
double, so it is rounded by `doubleOfLong`; a decoded string buffer is read
through `std::string(const char*)`, which truncates at the first NUL byte
(`truncAtNul`). -/
def PyObjectToNapiValue : Option PyObject → NapiValue
  | Option.none => NapiValue.undefined
  | some obj =>
    match obj with
    | PyObject.none => NapiValue.null
    | PyObject.bool b => NapiValue.boolean b
    | PyObject.int n =>
      if n < LONG_MIN ∨ n > LONG_MAX then NapiValue.number (JsNum.int 0)
      else NapiValue.number (JsNum.int (doubleOfLong n))
    | PyObject.float bits => NapiValue.number (JsNum.float bits)
    | PyObject.str enc =>
      match enc with
      | some s => NapiValue.string (truncAtNul s)
      | Option.none => NapiValue.string "[Decoding Error]"
    | PyObject.other _ => NapiValue.string "[Unsupported Python Type]"

set_option linter.unusedVariables false in
/-- Embedding of `ParsePythonJsonOutput` (python_bridge.cc lines 73-96).
The C function ignores `json_string` entirely and builds a fixed mock object
with fields `result = 3628800`, `input = 10` and a fixed message string. -/
def ParsePythonJsonOutput (json_string : String) : NapiValue :=
  NapiValue.object
    [ ("result", NapiValue.number (JsNum.int 3628800))
    , ("input", NapiValue.number (JsNum.int 10))
    , ("message", NapiValue.string
        "Python code executed and output parsed by C++ bridge.") ]

/-- The fetched Python exception state after `PyErr_Fetch` when
`PyRun_String` returned null: either no exception value (`pvalue` null), or
an exception value whose `PyObject_Str` representation is `strRep`
(`Option.none` when `PyObject_Str` itself fails). -/
inductive PyExcState where
  | none
  | value (strRep : Option String)
deriving DecidableEq, Repr

/-- Outcome of `PyRun_String` on a given source text: `ok` when it returns a
non-null result object, `raised` when it returns null with `exc` fetched. -/
inductive RunResult where
  | ok
  | raised (exc : PyExcState)
deriving DecidableEq, Repr

/-- The ambient CPython C API behavior consulted by the bridge:
`initOk` is the value of `Py_IsInitialized()` after `Py_Initialize()` runs;
`mainModuleOk` is whether `PyImport_AddModule` returns non-null;
`run` gives the `PyRun_String` outcome for each source text. -/
structure PyRuntime where
  initOk : Bool
  mainModuleOk : Bool
  run : String → RunResult

/-- The process-global mutable state of the bridge: the flag declared at
python_bridge.cc line 11 (named `python_initialized` in the C source). -/
structure BridgeState where
  python_init_done : Bool
deriving DecidableEq, Repr

/-- Kind of host exception thrown via `ThrowAsJavaScriptException`. -/
inductive ErrKind where
  | typeError
  | error
deriving DecidableEq, Repr

/-- Host-visible outcome of one call: either a returned value, or a pending
host exception of kind `kind` with message `msg` (the C function then
returns `env.Null()`, which the host discards in favor of the exception). -/
inductive CallOutcome where
  | success (v : NapiValue)
  | jsError (kind : ErrKind) (msg : String)

/-- The argument check `info.Length() < 1 || !info[0].IsString()` together
with `info[0].As<Napi::String>().Utf8Value()`: returns the string payload of
the first argument when it exists and is a string, `Option.none` otherwise. -/
def firstArgString : List NapiValue → Option String
  | NapiValue.string s :: _ => some s
  | _ => Option.none

/-- The hardcoded mock captured stdout at python_bridge.cc line 174. -/
def mock_json_output : String := "\x7b\"result\": 3628800, \"input\": 10\x7d"

/-- Embedding of `executePythonSync` (python_bridge.cc lines 105-177), with
the global `python_initialized` flag passed and returned explicitly.
Faithfully follows the control flow: argument check; lazy one-time
interpreter bring-up (the flag is set only after `Py_IsInitialized()`
confirms success); `PyImport_AddModule` null check; `PyRun_String`; on a
raised exception, message extraction via `PyObject_Str` with the fallbacks in
the C code; on success, the fixed mock stdout fed to `ParsePythonJsonOutput`. -/
def executePythonSync (rt : PyRuntime) (st : BridgeState) (args : List NapiValue) :
    CallOutcome × BridgeState :=
  match firstArgString args with
  | Option.none =>
    (CallOutcome.jsError ErrKind.typeError "Expected one string argument (Python code).", st)
  | some python_code =>
    -- Lazy one-time initialization (lines 121-129).
    if st.python_init_done = false ∧ rt.initOk = false then
      (CallOutcome.jsError ErrKind.error "Failed to initialize Python interpreter.", st)
    else
      let st1 : BridgeState := ⟨true⟩
      if rt.mainModuleOk = false then
        (CallOutcome.jsError ErrKind.error "Failed to get Python __main__ module.", st1)
      else
        match rt.run python_code with
        | RunResult.raised exc =>
          match exc with
          | PyExcState.value strRep =>
            let error_msg : String :=
              "Python Error: " ++ (match strRep with
                | some s => s
                | Option.none => "")
            (CallOutcome.jsError ErrKind.error error_msg, st1)
          | PyExcState.none =>
            (CallOutcome.jsError ErrKind.error "Unknown Python execution error.", st1)
        | RunResult.ok =>
          (CallOutcome.success (ParsePythonJsonOutput mock_json_output), st1)

/-- The fixed mock result object that every successful call returns. -/
def mockResultValue : NapiValue := ParsePythonJsonOutput mock_json_output

/-- A concrete CPython environment used for witnesses and counterexamples:
bring-up succeeds, `__main__` is available, the source text `1/0` raises a
`ZeroDivisionError` whose `str` is `division by zero`, two designated source
texts raise in ways that defeat message extraction, and every other source
runs to completion. -/
def rtDemo : PyRuntime :=
  ⟨true, true, fun src =>
    if src = "1/0" then RunResult.raised (PyExcState.value (some "division by zero"))
    else if src = "raise_unprintable" then RunResult.raised (PyExcState.value Option.none)
    else if src = "raise_no_value" then RunResult.raised PyExcState.none
    else RunResult.ok⟩

/-- A concrete CPython environment whose bring-up fails:
`Py_IsInitialized()` stays false after `Py_Initialize()`. -/
def rtInitFails : PyRuntime := ⟨false, true, fun _ => RunResult.ok⟩

/-- A Python source text that prints the JSON object with `result` 120 and
`input` 5 (the example from the testable properties of the specification). -/
def srcPrint120 : String := "print(\"\x7b\\\"result\\\": 120, \\\"input\\\": 5\x7d\")"

/-- Boolean prefix test on strings, by their character lists. -/
def hasPrefixStr (p s : String) : Bool := p.data.isPrefixOf s.data

/-- Formalized from the words of the specification (section 6): a failure
message has one of the three documented forms: exactly
`Failed to initialize interpreter`, `<RuntimeError>: ` followed by the
embedded exception text, or exactly
`<ParseError>: captured output was not valid structured data`.  This is the
claim-side predicate compared against the actual messages of the code. -/
def specFailureMessageForm (msg : String) : Bool :=
  (msg == "Failed to initialize interpreter")
  || hasPrefixStr "<RuntimeError>: " msg
  || (msg == "<ParseError>: captured output was not valid structured data")

/-- The set of failure messages the code can actually produce
(python_bridge.cc lines 109, 125, 133, 150-154, 157). -/
def bridgeFailureMessageForm (msg : String) : Prop :=
  msg = "Expected one string argument (Python code)." ∨
  msg = "Failed to initialize Python interpreter." ∨
  msg = "Failed to get Python __main__ module." ∨
  (∃ t : String, msg = "Python Error: " ++ t) ∨
  msg = "Unknown Python execution error."

/-- Helper: the global flag after a call with a string argument is set
whenever bring-up did not fail, and is left unchanged when it did. -/
theorem executePythonSync_state (rt : PyRuntime) (st : BridgeState) (src : String) :
    (executePythonSync rt st [NapiValue.string src]).2 =
      if st.python_init_done = false ∧ rt.initOk = false then st
      else BridgeState.mk true := by
  by_cases hc : st.python_init_done = false ∧ rt.initOk = false
  · simp [executePythonSync, firstArgString, hc]
  · simp only [executePythonSync, firstArgString, if_neg hc]
    cases hm : rt.mainModuleOk
    · simp [hm]
    · cases hr : rt.run src with
      | ok => simp [hm, hr]
      | raised exc => cases exc <;> simp [hm, hr]

/-- Helper: rounding to a multiple of `2 ^ 0 = 1` is the identity. -/
theorem roundNearestEvenNat_zero_exp (a : Nat) : roundNearestEvenNat a 0 = a := by
  simp [roundNearestEvenNat, Nat.mod_one]

/-- Helper: the rounded value is a multiple of the grid spacing `2 ^ j`,
hence representable as a double whose ulp is `2 ^ j`. -/
theorem roundNearestEvenNat_multiple (a j : Nat) :
    ∃ m : Nat, roundNearestEvenNat a j = 2 ^ j * m := by
  simp only [roundNearestEvenNat]
  have hp : 0 < 2 ^ j := Nat.two_pow_pos j
  have hdm : 2 ^ j * (a / 2 ^ j) + a % 2 ^ j = a := Nat.div_add_mod a (2 ^ j)
  have hlt : a % 2 ^ j < 2 ^ j := Nat.mod_lt a hp
  split_ifs
  · exact ⟨a / 2 ^ j, by omega⟩
  · refine ⟨a / 2 ^ j + 1, ?_⟩
    rw [Nat.mul_add, Nat.mul_one]
    omega
  · exact ⟨a / 2 ^ j, by omega⟩
  · refine ⟨a / 2 ^ j + 1, ?_⟩
    rw [Nat.mul_add, Nat.mul_one]
    omega

/-- Helper: the rounded value is within half a grid spacing of the input,
i.e. it is the nearest multiple of `2 ^ j`. -/
theorem roundNearestEvenNat_nearest (a j : Nat) :
    -((2 ^ j : Nat) : Int) ≤ 2 * ((roundNearestEvenNat a j : Int) - a) ∧
    2 * ((roundNearestEvenNat a j : Int) - a) ≤ ((2 ^ j : Nat) : Int) := by
  simp only [roundNearestEvenNat]
  have hp : 0 < 2 ^ j := Nat.two_pow_pos j
  generalize hP : (2 : Nat) ^ j = p at *
  have hlt : a % p < p := Nat.mod_lt a hp
  have hle : a % p ≤ a := Nat.mod_le a _
  split_ifs <;> constructor <;> omega

/-- Helper: the long-to-double conversion is the identity on the safe
integer range (magnitude at most `2 ^ 53`). -/
theorem doubleOfLong_small (n : Int) (h : n.natAbs ≤ 2 ^ 53) : doubleOfLong n = n := by
  simp only [doubleOfLong, ulpExp, h, if_true, roundNearestEvenNat_zero_exp]
  split_ifs <;> omega

/-- Helper: a string with no NUL character passes through the
`std::string(const char*)` constructor unchanged. -/
theorem truncAtNul_eq_self (s : String) (h : ∀ c ∈ s.data, (c != NUL) = true) :
    truncAtNul s = s := by
  unfold truncAtNul
  rw [List.takeWhile_eq_self_iff.mpr h]

/-- C9: calling `executePythonSync` with zero arguments or a non-string
first argument throws a host `TypeError` with message
`Expected one string argument (Python code).` and returns with the global
state unchanged; the outcome does not depend on the CPython runtime at all,
so the interpreter is neither initialized nor is any source executed. -/
theorem executePythonSync_bad_args (rt rt2 : PyRuntime) (st : BridgeState)
    (args : List NapiValue) (h : firstArgString args = Option.none) :
    executePythonSync rt st args =
      (CallOutcome.jsError ErrKind.typeError
        "Expected one string argument (Python code).", st) ∧
    executePythonSync rt st args = executePythonSync rt2 st args := by
  constructor <;> simp [executePythonSync, h]

/-- Witness for C9 at the concrete argument list `[boolean true]`, with two
different runtimes (one whose bring-up would fail). -/
theorem executePythonSync_bad_args_witness :
    executePythonSync rtDemo (BridgeState.mk false) [NapiValue.boolean true] =
      (CallOutcome.jsError ErrKind.typeError
        "Expected one string argument (Python code).", BridgeState.mk false) ∧
    executePythonSync rtDemo (BridgeState.mk false) [NapiValue.boolean true] =
      executePythonSync rtInitFails (BridgeState.mk false) [NapiValue.boolean true] :=
  executePythonSync_bad_args rtDemo rtInitFails (BridgeState.mk false)
    [NapiValue.boolean true] rfl

/-- C8 counterexample: value identity fails for supported scalars outside
the safe band.  The in-range integer `2 ^ 53 + 1` converts to the host
number `2 ^ 53` (the `long` is rounded when passed through the double
parameter of `Napi::Number::New`), and the decodable string containing an
embedded NUL, `a\x00b`, converts to the host string `a` (the
`std::string(const char*)` constructor stops at the NUL byte). -/
theorem PyObjectToNapiValue_identity_fails :
    PyObjectToNapiValue (some (PyObject.int (2 ^ 53 + 1))) =
      NapiValue.number (JsNum.int (2 ^ 53)) ∧
    (2 ^ 53 : Int) ≠ 2 ^ 53 + 1 ∧
    PyObjectToNapiValue (some (PyObject.str (some "a\x00b"))) = NapiValue.string "a" ∧
    ("a" : String) ≠ "a\x00b" :=
  ⟨rfl, by decide, rfl, by decide⟩

/-- C8 amended: the foreign-to-host conversion preserves value identity on
the exactly-representable scalars: `Py_None` maps to host null, booleans map
to the same boolean, integers of magnitude at most `2 ^ 53` map to the same
number, floats pass their double payload through unchanged, and a
successfully encoded string with no embedded NUL character maps to the same
host string.  (Larger integers are rounded to the nearest double, and a
string is truncated at its first NUL.) -/
theorem PyObjectToNapiValue_scalar_identity (b : Bool) (n : Int) (bits : Nat)
    (s : String) (hn : n.natAbs ≤ 2 ^ 53)
    (hs : ∀ c ∈ s.data, (c != NUL) = true) :
    PyObjectToNapiValue (some PyObject.none) = NapiValue.null ∧
    PyObjectToNapiValue (some (PyObject.bool b)) = NapiValue.boolean b ∧
    PyObjectToNapiValue (some (PyObject.int n)) = NapiValue.number (JsNum.int n) ∧
    PyObjectToNapiValue (some (PyObject.float bits)) = NapiValue.number (JsNum.float bits) ∧
    PyObjectToNapiValue (some (PyObject.str (some s))) = NapiValue.string s := by
  refine ⟨rfl, rfl, ?_, rfl, ?_⟩
  · show (if n < LONG_MIN ∨ n > LONG_MAX then NapiValue.number (JsNum.int 0)
      else NapiValue.number (JsNum.int (doubleOfLong n))) = NapiValue.number (JsNum.int n)
    have hcond : ¬ (n < LONG_MIN ∨ n > LONG_MAX) := by
      simp only [LONG_MIN, LONG_MAX]
      omega
    rw [if_neg hcond, doubleOfLong_small n hn]
  · show NapiValue.string (truncAtNul s) = NapiValue.string s
    rw [truncAtNul_eq_self s hs]

/-- Witness for C8 at boolean `true`, integer `42`, the double bit pattern
of `3.14`, and the string `hi`. -/
theorem PyObjectToNapiValue_scalar_identity_witness :
    PyObjectToNapiValue (some (PyObject.bool true)) = NapiValue.boolean true ∧
    PyObjectToNapiValue (some (PyObject.int 42)) = NapiValue.number (JsNum.int 42) ∧
    PyObjectToNapiValue (some (PyObject.str (some "hi"))) = NapiValue.string "hi" :=
  let h := PyObjectToNapiValue_scalar_identity true 42 4614253070214989087 "hi"
    (by norm_num) (by decide)
  ⟨h.2.1, h.2.2.1, h.2.2.2.2⟩

/-- C7 counterexample, at explicit concrete inputs: the conversion result is
not always a clamped/zeroed sentinel, and lossiness is not detectable. The
integer `2 ^ 64` (beyond the C `long` range) and the genuine `0` convert to
the identical host number `0`; the integer `2 ^ 53 + 1` (outside the safe
range but within `long` range) converts to the same host value as the
genuine `2 ^ 53`; and `2 ^ 53 + 3` converts to the host number `2 ^ 53 + 4`
— rounded upward, neither clamped nor zeroed nor a sentinel. -/
theorem PyObjectToNapiValue_overflow_not_detectable :
    PyObjectToNapiValue (some (PyObject.int (2 ^ 64))) =
      PyObjectToNapiValue (some (PyObject.int 0)) ∧
    PyObjectToNapiValue (some (PyObject.int 0)) = NapiValue.number (JsNum.int 0) ∧
    PyObjectToNapiValue (some (PyObject.int (2 ^ 53 + 1))) =
      PyObjectToNapiValue (some (PyObject.int (2 ^ 53))) ∧
    PyObjectToNapiValue (some (PyObject.int (2 ^ 53 + 3))) =
      NapiValue.number (JsNum.int (2 ^ 53 + 4)) :=
  ⟨rfl, rfl, rfl, rfl⟩

set_option linter.unusedVariables false in
/-- C7 amended: for every embedded integer outside the safe integer range
(magnitude above `2 ^ 53`), the conversion does not raise and is
deterministic.  An integer beyond the 64-bit C `long` range converts to the
zeroed host number `0`; an integer still within the `long` range is instead
rounded to the nearest representable double (a multiple of the ulp
`2 ^ ulpExp`, within half an ulp of the input, ties to even) — not clamped
or zeroed.  In neither regime can the caller detect the loss from the
result: the images collide with those of exactly-representable integers
(`2 ^ 53 + 1` collides with `2 ^ 53`, and `2 ^ 64` collides with `0`). -/
theorem PyObjectToNapiValue_unsafe_range (n : Int) (h : 2 ^ 53 < n.natAbs) :
    ((n < LONG_MIN ∨ n > LONG_MAX) →
      PyObjectToNapiValue (some (PyObject.int n)) = NapiValue.number (JsNum.int 0)) ∧
    (LONG_MIN ≤ n → n ≤ LONG_MAX →
      PyObjectToNapiValue (some (PyObject.int n)) =
        NapiValue.number (JsNum.int (doubleOfLong n)) ∧
      (∃ m : Nat, (doubleOfLong n).natAbs = 2 ^ ulpExp n.natAbs * m) ∧
      -((2 ^ ulpExp n.natAbs : Nat) : Int) ≤ 2 * (doubleOfLong n - n) ∧
      2 * (doubleOfLong n - n) ≤ ((2 ^ ulpExp n.natAbs : Nat) : Int)) ∧
    PyObjectToNapiValue (some (PyObject.int (2 ^ 53 + 1))) =
      PyObjectToNapiValue (some (PyObject.int (2 ^ 53))) := by
  refine ⟨fun hout => ?_, fun hlo hhi => ⟨?_, ?_, ?_⟩, rfl⟩
  · show (if n < LONG_MIN ∨ n > LONG_MAX then NapiValue.number (JsNum.int 0)
      else NapiValue.number (JsNum.int (doubleOfLong n))) = NapiValue.number (JsNum.int 0)
    rw [if_pos hout]
  · show (if n < LONG_MIN ∨ n > LONG_MAX then NapiValue.number (JsNum.int 0)
      else NapiValue.number (JsNum.int (doubleOfLong n))) =
      NapiValue.number (JsNum.int (doubleOfLong n))
    rw [if_neg]
    rintro (hl | hr)
    · exact absurd hlo (not_le.mpr hl)
    · exact absurd hhi (not_le.mpr hr)
  · have habs : (doubleOfLong n).natAbs =
        roundNearestEvenNat n.natAbs (ulpExp n.natAbs) := by
      simp only [doubleOfLong]
      split_ifs <;> simp
    obtain ⟨m, hm⟩ := roundNearestEvenNat_multiple n.natAbs (ulpExp n.natAbs)
    exact ⟨m, by rw [habs, hm]⟩
  · have hb := roundNearestEvenNat_nearest n.natAbs (ulpExp n.natAbs)
    simp only [doubleOfLong]
    split_ifs with hneg <;> constructor <;> omega

/-- Witness for the amended C7 at the concrete inputs `2 ^ 64` (zeroed) and
the collision pair `2 ^ 53 + 1` / `2 ^ 53`. -/
theorem PyObjectToNapiValue_unsafe_range_witness :
    PyObjectToNapiValue (some (PyObject.int (2 ^ 64))) =
      NapiValue.number (JsNum.int 0) ∧
    PyObjectToNapiValue (some (PyObject.int (2 ^ 53 + 1))) =
      PyObjectToNapiValue (some (PyObject.int (2 ^ 53))) :=
  ⟨(PyObjectToNapiValue_unsafe_range (2 ^ 64) (by norm_num)).1
      (Or.inr (by norm_num [LONG_MAX])),
   (PyObjectToNapiValue_unsafe_range (2 ^ 64) (by norm_num)).2.2⟩

/-- C6 counterexample: an unsupported foreign value of type `list` converts
to the fixed sentinel string `[Unsupported Python Type]`, which does not
contain (and hence does not describe) the foreign type name `list`. -/
theorem PyObjectToNapiValue_sentinel_lacks_type_name :
    PyObjectToNapiValue (some (PyObject.other "list")) =
      NapiValue.string "[Unsupported Python Type]" ∧
    ¬ ("list".data <:+: "[Unsupported Python Type]".data) :=
  ⟨rfl, by decide⟩

/-- C6 amended: the conversion is total and never raises; every unsupported
foreign type converts to the fixed sentinel string
`[Unsupported Python Type]` (independent of the type name), and a string
whose UTF-8 re-encoding fails converts to the sentinel `[Decoding Error]`. -/
theorem PyObjectToNapiValue_sentinels (t : String) :
    PyObjectToNapiValue (some (PyObject.other t)) =
      NapiValue.string "[Unsupported Python Type]" ∧
    PyObjectToNapiValue (some (PyObject.str Option.none)) =
      NapiValue.string "[Decoding Error]" :=
  ⟨rfl, rfl⟩

/-- C10: any two source texts that both run to completion produce identical
success results: the fixed mock object with `result` 3628800, `input` 10 and
a fixed message string, independent of what either source printed or
computed. -/
theorem executePythonSync_success_fixed (rt : PyRuntime) (st : BridgeState)
    (src1 src2 : String)
    (hinit : st.python_init_done = true ∨ rt.initOk = true)
    (hmain : rt.mainModuleOk = true)
    (h1 : rt.run src1 = RunResult.ok) (h2 : rt.run src2 = RunResult.ok) :
    (executePythonSync rt st [NapiValue.string src1]).1 =
      (executePythonSync rt st [NapiValue.string src2]).1 ∧
    (executePythonSync rt st [NapiValue.string src1]).1 =
      CallOutcome.success mockResultValue := by
  rcases hinit with hinit | hinit <;>
    constructor <;>
    simp [executePythonSync, firstArgString, mockResultValue, hinit, hmain, h1, h2]

/-- Witness for C10 at the two concrete sources `a = 1` and `b = 2`. -/
theorem executePythonSync_success_fixed_witness :
    (executePythonSync rtDemo (BridgeState.mk false) [NapiValue.string "a = 1"]).1 =
      (executePythonSync rtDemo (BridgeState.mk false) [NapiValue.string "b = 2"]).1 ∧
    (executePythonSync rtDemo (BridgeState.mk false) [NapiValue.string "a = 1"]).1 =
      CallOutcome.success mockResultValue :=
  executePythonSync_success_fixed rtDemo (BridgeState.mk false) "a = 1" "b = 2"
    (Or.inr rfl) rfl rfl rfl

/-- C4: when the executed source raises an embedded exception, the call
yields a host error whose message is `Python Error: ` followed by the
string representation of the exception value; when the value cannot be
stringified the message is the bare generic prefix, and when no exception
value is available it is the generic `Unknown Python execution error.`.  In
every case only a string crosses the boundary, the global flag stays set,
and a subsequent call on the resulting state succeeds. -/
theorem executePythonSync_runtime_error (rt : PyRuntime) (st : BridgeState)
    (src src2 src3 src4 : String) (s : String)
    (hinit : rt.initOk = true) (hmain : rt.mainModuleOk = true)
    (hraise : rt.run src = RunResult.raised (PyExcState.value (some s)))
    (hok : rt.run src2 = RunResult.ok)
    (hfall : rt.run src3 = RunResult.raised (PyExcState.value Option.none))
    (hnoval : rt.run src4 = RunResult.raised PyExcState.none) :
    (executePythonSync rt st [NapiValue.string src]).1 =
      CallOutcome.jsError ErrKind.error ("Python Error: " ++ s) ∧
    ((executePythonSync rt st [NapiValue.string src]).2).python_init_done = true ∧
    (executePythonSync rt (executePythonSync rt st [NapiValue.string src]).2
        [NapiValue.string src2]).1 = CallOutcome.success mockResultValue ∧
    (executePythonSync rt st [NapiValue.string src3]).1 =
      CallOutcome.jsError ErrKind.error "Python Error: " ∧
    (executePythonSync rt st [NapiValue.string src4]).1 =
      CallOutcome.jsError ErrKind.error "Unknown Python execution error." := by
  refine ⟨?_, ?_, ?_, ?_, ?_⟩ <;>
    simp [executePythonSync, firstArgString, mockResultValue,
      hinit, hmain, hraise, hok, hfall, hnoval]

/-- Witness for C4: in `rtDemo`, the source `1/0` raises with description
`division by zero`; the first conjunct of the theorem is applied to it. -/
theorem executePythonSync_runtime_error_witness :
    (executePythonSync rtDemo (BridgeState.mk false) [NapiValue.string "1/0"]).1 =
      CallOutcome.jsError ErrKind.error ("Python Error: " ++ "division by zero") :=
  (executePythonSync_runtime_error rtDemo (BridgeState.mk false)
    "1/0" "x = 1" "raise_unprintable" "raise_no_value" "division by zero"
    rfl rfl rfl rfl rfl rfl).1

/-- C5: initialization runs at most once per process.  When the flag is
already set, the call leaves the state unchanged and its result does not
depend on how bring-up would have gone (initialization is skipped as a
no-op).  When the flag is unset and bring-up succeeds, the flag becomes set.
When the flag is unset and bring-up fails, the call reports the fatal error
and the flag stays unset, so a later call may retry initialization. -/
theorem executePythonSync_init_once (rt : PyRuntime) (st : BridgeState)
    (src : String) (b : Bool) :
    (st.python_init_done = true →
      (executePythonSync rt st [NapiValue.string src]).2 = st ∧
      executePythonSync (PyRuntime.mk b rt.mainModuleOk rt.run) st
          [NapiValue.string src] =
        executePythonSync rt st [NapiValue.string src]) ∧
    (st.python_init_done = false → rt.initOk = true →
      (executePythonSync rt st [NapiValue.string src]).2.python_init_done = true) ∧
    (st.python_init_done = false → rt.initOk = false →
      (executePythonSync rt st [NapiValue.string src]).1 =
        CallOutcome.jsError ErrKind.error "Failed to initialize Python interpreter." ∧
      (executePythonSync rt st [NapiValue.string src]).2.python_init_done = false) := by
  refine ⟨fun h => ⟨?_, ?_⟩, fun h hb => ?_, fun h hb => ⟨?_, ?_⟩⟩
  · obtain ⟨d⟩ := st
    simp only [executePythonSync_state]
    simp at h
    simp [h]
  · simp [executePythonSync, firstArgString, h]
  · rw [executePythonSync_state]
    simp [h, hb]
  · simp [executePythonSync, firstArgString, h, hb]
  · rw [executePythonSync_state]
    simp [h, hb]

/-- Witness for C5: exercised at concrete states for all three parts, in
`rtDemo` (bring-up succeeds) and `rtInitFails` (bring-up fails). -/
theorem executePythonSync_init_once_witness :
    (executePythonSync rtDemo (BridgeState.mk true) [NapiValue.string "pass"]).2 =
      BridgeState.mk true ∧
    (executePythonSync rtDemo (BridgeState.mk false)
        [NapiValue.string "pass"]).2.python_init_done = true ∧
    (executePythonSync rtInitFails (BridgeState.mk false)
        [NapiValue.string "pass"]).1 =
      CallOutcome.jsError ErrKind.error "Failed to initialize Python interpreter." :=
  ⟨((executePythonSync_init_once rtDemo (BridgeState.mk true) "pass" true).1 rfl).1,
   (executePythonSync_init_once rtDemo (BridgeState.mk false) "pass" true).2.1 rfl rfl,
   ((executePythonSync_init_once rtInitFails (BridgeState.mk false) "pass" true).2.2
     rfl rfl).1⟩

/-- C3 counterexample: the source `1/0` raises an embedded exception, and
the resulting failure message is `Python Error: division by zero`, which
matches none of the three message forms enumerated by the specification. -/
theorem executePythonSync_message_form_violated :
    (executePythonSync rtDemo (BridgeState.mk true) [NapiValue.string "1/0"]).1 =
      CallOutcome.jsError ErrKind.error "Python Error: division by zero" ∧
    specFailureMessageForm "Python Error: division by zero" = false :=
  ⟨rfl, by decide⟩

/-- C3 amended: every failure message the call can produce is one of the
five concrete forms found in the code: the argument-check text, the
initialization-failure text, the `__main__`-lookup text, `Python Error: `
followed by the exception text (possibly empty), or the unknown-error text;
no `ParseError` form exists because output parsing is mocked. -/
theorem executePythonSync_failure_messages (rt : PyRuntime) (st : BridgeState)
    (args : List NapiValue) (k : ErrKind) (msg : String)
    (h : (executePythonSync rt st args).1 = CallOutcome.jsError k msg) :
    bridgeFailureMessageForm msg := by
  unfold executePythonSync at h
  split at h
  · cases h
    exact Or.inl rfl
  · split at h
    · cases h
      exact Or.inr (Or.inl rfl)
    · split at h
      · cases h
        exact Or.inr (Or.inr (Or.inl rfl))
      · split at h
        · split at h
          · cases h
            exact Or.inr (Or.inr (Or.inr (Or.inl ⟨_, rfl⟩)))
          · cases h
            exact Or.inr (Or.inr (Or.inr (Or.inr rfl)))
        · cases h

/-- Witness for the amended C3: the unknown-error path of `rtDemo`. -/
theorem executePythonSync_failure_messages_witness :
    bridgeFailureMessageForm "Unknown Python execution error." :=
  executePythonSync_failure_messages rtDemo (BridgeState.mk true)
    [NapiValue.string "raise_no_value"] ErrKind.error
    "Unknown Python execution error." rfl

/-- C1: executing a source text that prints the JSON object with fields
`result` 120 and `input` 5 nevertheless returns the fixed mock object whose
`result` field is 3628800 — the returned value does not deep-equal the JSON
the source printed, because the captured output and its parse are mocked
(python_bridge.cc lines 174 and 86-95). -/
theorem executePythonSync_ignores_printed_json :
    (executePythonSync rtDemo (BridgeState.mk true) [NapiValue.string srcPrint120]).1 =
      CallOutcome.success mockResultValue ∧
    mockResultValue ≠ NapiValue.object
      [ ("result", NapiValue.number (JsNum.int 120))
      , ("input", NapiValue.number (JsNum.int 5)) ] := by
  constructor
  · rfl
  · intro h
    simp [mockResultValue, ParsePythonJsonOutput] at h

/-- C2: executing a source text that prints nothing at all (`pass`) still
returns a success outcome carrying the fixed mock object; the call never
reports a parse error on empty or malformed output, because no output is
ever captured or parsed. -/
theorem executePythonSync_no_parse_error :
    (executePythonSync rtDemo (BridgeState.mk true) [NapiValue.string "pass"]).1 =
      CallOutcome.success mockResultValue ∧
    ∀ (k : ErrKind) (msg : String),
      (executePythonSync rtDemo (BridgeState.mk true) [NapiValue.string "pass"]).1 ≠
        CallOutcome.jsError k msg := by
  refine ⟨rfl, ?_⟩
  intro k msg h
  exact CallOutcome.noConfusion h
